import Mathlib

/-!
Verification of the FGP Dashboard service status aggregation and control
component (src/api.rs) against its natural-language specification.

The Rust source is shallowly embedded: the IO boundary (filesystem registry
scan, socket existence check, client construction, health RPC, supervisor
start/stop) is represented by explicit inputs, and the pure classification,
aggregation, sorting and HTTP-mapping logic of `api.rs` is translated
function by function.
-/

namespace FgpDashboard

/-- A single-quote character as a string (used by the Rust format strings). -/
def sq : String := "\x27"

/-- JSON values, as manipulated by serde_json in `api.rs`. Numbers are
modelled as integers: the only numeric accessor the code uses is `as_u64`,
which yields a value exactly for non-negative integers below 2^64 (and is
`None` on any float), so float payload values behave like any other
non-u64 value here. Objects are association lists with the first binding
for a key authoritative (serde_json maps have unique keys). -/
inductive Json where
  | null
  | bool (b : Bool)
  | num (n : Int)
  | str (s : String)
  | arr (elems : List Json)
  | obj (fields : List (String × Json))

/-- Lookup of a key in a JSON object field list; `Json.null` when missing,
mirroring serde_json `value["key"]` read access. -/
def lookupField : List (String × Json) → String → Json
  | [], _ => Json.null
  | (k, v) :: rest, key => if k = key then v else lookupField rest key

/-- serde_json `value["key"]`: field of an object, `Null` for a missing key
or for indexing a non-object. -/
def Json.index (j : Json) (key : String) : Json :=
  match j with
  | .obj fields => lookupField fields key
  | _ => .null

/-- serde_json `Value::as_str`. -/
def Json.asStr : Json → Option String
  | .str s => some s
  | _ => none

/-- serde_json `Value::as_u64`: a non-negative integer below 2^64. -/
def Json.asU64 : Json → Option Nat
  | .num n => if 0 ≤ n ∧ n < (2 : Int) ^ 64 then some n.toNat else none
  | _ => none

/-- The `error` object of the fgp_daemon health response envelope; the code
reads only its `message` field (api.rs line 128). -/
structure ErrorObject where
  message : String

/-- The fgp_daemon `HealthResponse` envelope as consumed by `api.rs`:
an `ok` flag, an optional `result` payload and an optional error object. -/
structure HealthResponse where
  ok : Bool
  result : Option Json
  error : Option ErrorObject

/-- Outcome of probing one service over its control socket, modelling the
IO performed at api.rs lines 73-89 and 109-143:
* `socketMissing` — `socket_path.exists()` returned false;
* `clientNewErr` — the socket exists but `FgpClient::new` failed, with the
  Display text of the error;
* `callErr` — the client was constructed but `client.health()` returned
  `Err`, with the Display text of the error;
* `callOk` — the health call returned `Ok(response)`; the socket existed
  and a client connection was established. -/
inductive ProbeOutcome where
  | socketMissing
  | clientNewErr (msg : String)
  | callErr (msg : String)
  | callOk (response : HealthResponse)

/-- The `ServiceInfo` record of api.rs (one listing entry per service). -/
structure ServiceInfo where
  name : String
  status : String
  version : Option String
  uptime_seconds : Option Nat
  socket_path : String
deriving DecidableEq

/-- The `ApiResponse` wrapper of api.rs. -/
structure ApiResponse (T : Type) where
  ok : Bool
  data : Option T
  error : Option String

/-- `ApiResponse::success` (api.rs lines 30-36). -/
def ApiResponse.success {T : Type} (data : T) : ApiResponse T :=
  { ok := true, data := some data, error := none }

/-- `ApiResponse::error` (api.rs lines 38-44). -/
def ApiResponse.errorOf {T : Type} (message : String) : ApiResponse T :=
  { ok := false, data := none, error := some message }

/-- The status/version/uptime classification of one probe outcome, the body
of the `if socket_path.exists()` expression at api.rs lines 73-89. The
guarded match arm `Ok(response) if response.ok` takes the payload branch;
the wildcard arm (an `Ok` envelope with `ok == false`, or an `Err` from the
call) yields `"not_responding"`; a failed `FgpClient::new` yields
`"socket_error"`; a missing socket yields `"stopped"`. -/
def classifyProbe : ProbeOutcome → String × Option String × Option Nat
  | .socketMissing => ("stopped", none, none)
  | .clientNewErr _ => ("socket_error", none, none)
  | .callErr _ => ("not_responding", none, none)
  | .callOk response =>
    if response.ok then
      let result := response.result.getD Json.null
      let version := (result.index "version").asStr
      let uptime := (result.index "uptime_seconds").asU64
      let status := ((result.index "status").asStr).getD "running"
      (status, version, uptime)
    else
      ("not_responding", none, none)

/-- One directory entry yielded by `fs::read_dir` over the services
registry root. `fileName` is the result of
`path.file_name().and_then(to_str)`: `some` holds the UTF-8 decoding of
the entry's (unique) OS-level name, `none` models a name that is not
valid UTF-8 (distinct OS names may each fail to decode). -/
structure DirEntry where
  fileName : Option String
  isDir : Bool
deriving DecidableEq

/-- The registry state observed by one listing request: whether the root
exists, whether `fs::read_dir` succeeded, and the entries in the order the
filesystem enumerates them. -/
structure RegistryState where
  rootExists : Bool
  readDirOk : Bool
  entries : List DirEntry

/-- The service name derived from a directory entry:
`file_name().and_then(to_str).unwrap_or("unknown")` (api.rs lines 64-68). -/
def entryName (e : DirEntry) : String := e.fileName.getD "unknown"

/-- The `ServiceInfo` pushed for one service (api.rs lines 70-97):
name from the registry entry, status/version/uptime from the probe of that
name, socket path from `fgp_daemon::service_socket_path` (external,
modelled by the `sockPath` parameter). -/
def serviceRecord (sockPath : String → String) (probe : String → ProbeOutcome)
    (name : String) : ServiceInfo :=
  { name := name
    status := (classifyProbe (probe name)).1
    version := (classifyProbe (probe name)).2.1
    uptime_seconds := (classifyProbe (probe name)).2.2
    socket_path := sockPath name }

/-- Lexicographic comparison of character sequences. Rust `String::cmp`
compares UTF-8 byte sequences; UTF-8 encoding preserves code-point order,
so the byte-wise order on valid UTF-8 strings is exactly the lexicographic
order of their code points, modelled here on `String.data`. -/
def byteLe : List Char → List Char → Bool
  | [], _ => true
  | _ :: _, [] => false
  | a :: as, b :: bs =>
    if a < b then true
    else if b < a then false
    else byteLe as bs

/-- Byte-wise ascending order on record names (`a.name.cmp(&b.name)`). -/
def nameLe (a b : ServiceInfo) : Prop :=
  byteLe a.name.data b.name.data = true

instance : DecidableRel nameLe := fun a b =>
  inferInstanceAs (Decidable (byteLe a.name.data b.name.data = true))

/-- `services.sort_by(|a, b| a.name.cmp(&b.name))` (api.rs line 102).
Rust's `sort_by` is a stable sort; any stable sort by the same key yields
the same output list, so it is modelled by insertion sort. -/
def sortByName (l : List ServiceInfo) : List ServiceInfo :=
  List.insertionSort nameLe l

/-- `list_services` (api.rs lines 48-105): an absent registry root yields
an empty success; otherwise each directory entry of the root is probed and
classified (non-directory entries skipped, a failed `read_dir` silently
yields no entries), and the records are returned sorted by name inside a
success envelope. -/
def listServices (sockPath : String → String) (probe : String → ProbeOutcome)
    (st : RegistryState) : ApiResponse (List ServiceInfo) :=
  if st.rootExists = false then
    ApiResponse.success []
  else
    let entries := if st.readDirOk then st.entries else []
    let services := entries.filterMap fun e =>
      if e.isDir then some (serviceRecord sockPath probe (entryName e)) else none
    ApiResponse.success (sortByName services)

/-- `service_health` (api.rs lines 108-144), returning the HTTP status code
paired with the response envelope. The probe argument plays the role of the
socket-existence check, client construction and health call for the
requested service. -/
def serviceHealth (service : String) (probe : ProbeOutcome) :
    Nat × ApiResponse Json :=
  match probe with
  | .socketMissing =>
      (404, ApiResponse.errorOf ("Service " ++ sq ++ service ++ sq ++ " is not running"))
  | .clientNewErr e => (500, ApiResponse.errorOf e)
  | .callErr e => (500, ApiResponse.errorOf e)
  | .callOk response =>
    if response.ok then
      (200, ApiResponse.success (response.result.getD Json.null))
    else
      (500, ApiResponse.errorOf ((response.error.map ErrorObject.message).getD ""))

/-- `start_service` (api.rs lines 147-160). The external supervisor call
`fgp_daemon::start_service` is modelled by its result: `Except.ok` for
`Ok(())`, `Except.error` carrying the Display text of the error. -/
def startService (service : String) (supervisor : Except String Unit) :
    Nat × ApiResponse Json :=
  match supervisor with
  | .ok _ =>
      (200, ApiResponse.success
        (Json.obj [("message", Json.str ("Service " ++ sq ++ service ++ sq ++ " started"))]))
  | .error e => (500, ApiResponse.errorOf e)

/-- `stop_service` (api.rs lines 163-176), same shape as `start_service`. -/
def stopService (service : String) (supervisor : Except String Unit) :
    Nat × ApiResponse Json :=
  match supervisor with
  | .ok _ =>
      (200, ApiResponse.success
        (Json.obj [("message", Json.str ("Service " ++ sq ++ service ++ sq ++ " stopped"))]))
  | .error e => (500, ApiResponse.errorOf e)

/-- Concrete health payload used as a sample input: the payload of the
specification's worked example. -/
def demoPayload : Json :=
  Json.obj [("status", Json.str "degraded"), ("version", Json.str "1.2"),
            ("uptime_seconds", Json.num 42)]

/-! Order-theoretic facts about the byte-wise comparison. -/

theorem byteLe_total : ∀ as bs, byteLe as bs = true ∨ byteLe bs as = true := by
  intro as
  induction as with
  | nil => intro bs; left; rfl
  | cons a as ih =>
    intro bs
    cases bs with
    | nil => right; rfl
    | cons b bs =>
      rcases lt_trichotomy a b with h | h | h
      · left; simp [byteLe, h]
      · subst h
        rcases ih bs with h2 | h2
        · left; simp [byteLe, lt_irrefl, h2]
        · right; simp [byteLe, lt_irrefl, h2]
      · right; simp [byteLe, h]

theorem byteLe_trans :
    ∀ as bs cs, byteLe as bs = true → byteLe bs cs = true → byteLe as cs = true := by
  intro as
  induction as with
  | nil => intro bs cs h1 h2; rfl
  | cons a as ih =>
    intro bs cs h1 h2
    cases bs with
    | nil => simp [byteLe] at h1
    | cons b bs =>
      cases cs with
      | nil => simp [byteLe] at h2
      | cons c cs =>
        rcases lt_trichotomy a b with hab | hab | hab
        · rcases lt_trichotomy b c with hbc | hbc | hbc
          · simp [byteLe, lt_trans hab hbc]
          · subst hbc; simp [byteLe, hab]
          · simp [byteLe, hbc, not_lt_of_lt hbc] at h2
        · subst hab
          rcases lt_trichotomy a c with hac | hac | hac
          · simp [byteLe, hac]
          · subst hac
            simp [byteLe, lt_irrefl] at h1 h2 ⊢
            exact ih bs cs h1 h2
          · simp [byteLe, hac, not_lt_of_lt hac] at h2
        · simp [byteLe, hab, not_lt_of_lt hab] at h1

theorem byteLe_antisymm :
    ∀ as bs, byteLe as bs = true → byteLe bs as = true → as = bs := by
  intro as
  induction as with
  | nil =>
    intro bs h1 h2
    cases bs with
    | nil => rfl
    | cons b bs => simp [byteLe] at h2
  | cons a as ih =>
    intro bs h1 h2
    cases bs with
    | nil => simp [byteLe] at h1
    | cons b bs =>
      rcases lt_trichotomy a b with h | h | h
      · simp [byteLe, h, not_lt_of_lt h] at h2
      · subst h
        simp [byteLe, lt_irrefl] at h1 h2
        rw [ih bs h1 h2]
      · simp [byteLe, h, not_lt_of_lt h] at h1

instance : IsTotal ServiceInfo nameLe :=
  ⟨fun a b => byteLe_total a.name.data b.name.data⟩

instance : IsTrans ServiceInfo nameLe :=
  ⟨fun _ _ _ h h2 => byteLe_trans _ _ _ h h2⟩

/-- Antisymmetry of the name order up to name equality: mutually related
records carry the same name. -/
theorem nameLe_antisymm {a b : ServiceInfo} (h1 : nameLe a b) (h2 : nameLe b a) :
    a.name = b.name :=
  congrArg String.mk (byteLe_antisymm a.name.data b.name.data h1 h2)

/-- Two permuted lists that are both pairwise-ordered by an asymmetric
relation are equal. -/
theorem perm_pairwise_asymm_eq {α : Type} {r : α → α → Prop}
    (hasymm : ∀ a b, r a b → ¬ r b a) :
    ∀ {l₁ l₂ : List α}, List.Perm l₁ l₂ →
      List.Pairwise r l₁ → List.Pairwise r l₂ → l₁ = l₂ := by
  intro l₁
  induction l₁ with
  | nil =>
    intro l₂ hp _ _
    exact (List.Perm.eq_nil hp.symm).symm
  | cons a t ih =>
    intro l₂ hp h₁ h₂
    cases l₂ with
    | nil => exact absurd (List.Perm.eq_nil hp) (by simp)
    | cons b u =>
      have hab : a = b := by
        have ha : a ∈ b :: u := hp.mem_iff.mp (List.mem_cons_self a t)
        rcases List.mem_cons.mp ha with h | h
        · exact h
        · have hba : r b a := (List.pairwise_cons.mp h₂).1 a h
          have hb : b ∈ a :: t := hp.symm.mem_iff.mp (List.mem_cons_self b u)
          rcases List.mem_cons.mp hb with h9 | h9
          · subst h9
            exact absurd hba (hasymm b b hba)
          · have hab2 : r a b := (List.pairwise_cons.mp h₁).1 b h9
            exact absurd hba (hasymm a b hab2)
      subst hab
      rw [ih (List.Perm.cons_inv hp) (List.pairwise_cons.mp h₁).2
        (List.pairwise_cons.mp h₂).2]

/-! Helper lemmas about the listing. -/

theorem serviceRecord_name (sp : String → String) (pr : String → ProbeOutcome)
    (n : String) : (serviceRecord sp pr n).name = n := rfl

theorem serviceRecord_status (sp : String → String) (pr : String → ProbeOutcome)
    (n : String) : (serviceRecord sp pr n).status = (classifyProbe (pr n)).1 := rfl

/-- A status of `"running"` can only come out of the affirmative-envelope
branch of the classification. -/
theorem running_status_probe (p : ProbeOutcome)
    (h : (classifyProbe p).1 = "running") :
    ∃ r, p = ProbeOutcome.callOk r ∧ r.ok = true := by
  cases p with
  | socketMissing => simp [classifyProbe] at h
  | clientNewErr e => simp [classifyProbe] at h
  | callErr e => simp [classifyProbe] at h
  | callOk r =>
    cases hr : r.ok with
    | false => simp [classifyProbe, hr] at h
    | true => exact ⟨r, rfl, hr⟩

/-- C1: a successful health call with a negative envelope (`ok == false`)
was claimed to yield a status distinct from the connection/call-failure
status and to carry the service-returned error message. In the listing of
api.rs both a negative envelope and a failed call land in the same wildcard
match arm: both yield `"not_responding"` and the service-supplied error
message is dropped. -/
theorem negative_envelope_distinct_refuted :
    classifyProbe (ProbeOutcome.callOk ⟨false, none, some ⟨"disk full"⟩⟩)
      = classifyProbe (ProbeOutcome.callErr "connection reset") ∧
    classifyProbe (ProbeOutcome.callOk ⟨false, none, some ⟨"disk full"⟩⟩)
      = ("not_responding", none, none) := ⟨rfl, rfl⟩

/-- C1 (amended): in the listing, a successful call returning a negative
envelope is classified `"not_responding"`, the same status as a failure of
the health call itself, and the error message returned by the service is
not carried into the record. -/
theorem negative_envelope_merged (r : HealthResponse) (h : r.ok = false)
    (m : String) :
    classifyProbe (ProbeOutcome.callOk r) = ("not_responding", none, none) ∧
    classifyProbe (ProbeOutcome.callOk r) = classifyProbe (ProbeOutcome.callErr m) := by
  simp [classifyProbe, h]

theorem negative_envelope_merged_witness :
    classifyProbe (ProbeOutcome.callOk ⟨false, none, some ⟨"disk full"⟩⟩)
      = ("not_responding", none, none) ∧
    classifyProbe (ProbeOutcome.callOk ⟨false, none, some ⟨"disk full"⟩⟩)
      = classifyProbe (ProbeOutcome.callErr "connection reset") :=
  negative_envelope_merged ⟨false, none, some ⟨"disk full"⟩⟩ rfl "connection reset"

/-- C2: the claim that a failed client construction and a failed health
call map to the same observable status is refuted: the listing of api.rs
classifies the former `"socket_error"` (line 85) and the latter
`"not_responding"` (line 83), two different strings in the serialized
`status` field. -/
theorem failure_statuses_equal_refuted :
    (classifyProbe (ProbeOutcome.clientNewErr "permission denied")).1 = "socket_error" ∧
    (classifyProbe (ProbeOutcome.callErr "permission denied")).1 = "not_responding" ∧
    ("socket_error" : String) ≠ "not_responding" := by
  refine ⟨rfl, rfl, ?_⟩
  decide

/-- C2 (amended): a failure to construct the client and a failure of the
health call itself are mapped to distinct statuses in the listing,
`"socket_error"` and `"not_responding"` respectively, so the listing
observably distinguishes the two failure cases. -/
theorem failure_statuses_distinguished (e₁ e₂ : String) :
    classifyProbe (ProbeOutcome.clientNewErr e₁) = ("socket_error", none, none) ∧
    classifyProbe (ProbeOutcome.callErr e₂) = ("not_responding", none, none) ∧
    (classifyProbe (ProbeOutcome.clientNewErr e₁)).1
      ≠ (classifyProbe (ProbeOutcome.callErr e₂)).1 := by
  refine ⟨rfl, rfl, ?_⟩
  show ("socket_error" : String) ≠ "not_responding"
  decide

/-- C3: the health-detail endpoint maps a missing endpoint to 404 with a
non-affirmative envelope; an affirmative envelope to 200 with the raw
payload as data; a negative envelope to 500 carrying the service-supplied
error message; and a failed call or client construction to 500 carrying
the transport error text. -/
theorem health_detail_status_mapping (service e : String)
    (r₁ r₂ : HealthResponse) (em : ErrorObject)
    (h₁ : r₁.ok = true) (h₂ : r₂.ok = false) (h₃ : r₂.error = some em) :
    (serviceHealth service ProbeOutcome.socketMissing).1 = 404 ∧
    (serviceHealth service ProbeOutcome.socketMissing).2.ok = false ∧
    serviceHealth service (ProbeOutcome.callOk r₁)
      = (200, ApiResponse.success (r₁.result.getD Json.null)) ∧
    serviceHealth service (ProbeOutcome.callOk r₂)
      = (500, ApiResponse.errorOf em.message) ∧
    serviceHealth service (ProbeOutcome.callErr e) = (500, ApiResponse.errorOf e) ∧
    serviceHealth service (ProbeOutcome.clientNewErr e) = (500, ApiResponse.errorOf e) := by
  refine ⟨rfl, rfl, ?_, ?_, rfl, rfl⟩
  · simp [serviceHealth, h₁]
  · simp [serviceHealth, h₂, h₃]

theorem health_detail_status_mapping_witness :
    (serviceHealth "cache" ProbeOutcome.socketMissing).1 = 404 ∧
    (serviceHealth "cache" ProbeOutcome.socketMissing).2.ok = false ∧
    serviceHealth "cache" (ProbeOutcome.callOk ⟨true, some demoPayload, none⟩)
      = (200, ApiResponse.success demoPayload) ∧
    serviceHealth "cache" (ProbeOutcome.callOk ⟨false, none, some ⟨"oops"⟩⟩)
      = (500, ApiResponse.errorOf "oops") ∧
    serviceHealth "cache" (ProbeOutcome.callErr "broken pipe")
      = (500, ApiResponse.errorOf "broken pipe") ∧
    serviceHealth "cache" (ProbeOutcome.clientNewErr "broken pipe")
      = (500, ApiResponse.errorOf "broken pipe") :=
  health_detail_status_mapping "cache" "broken pipe"
    ⟨true, some demoPayload, none⟩ ⟨false, none, some ⟨"oops"⟩⟩ ⟨"oops"⟩ rfl rfl rfl

/-- C4: for an affirmative envelope the record status is the payload's
`status` string when that field holds a string, defaulting to `"running"`
when it is absent, and `version`/`uptime_seconds` are read from the payload
when present and are absent otherwise. -/
theorem affirmative_payload_fields (r : HealthResponse) (h : r.ok = true) :
    (((r.result.getD Json.null).index "status").asStr = none →
      (classifyProbe (ProbeOutcome.callOk r)).1 = "running") ∧
    (∀ s, ((r.result.getD Json.null).index "status").asStr = some s →
      (classifyProbe (ProbeOutcome.callOk r)).1 = s) ∧
    (classifyProbe (ProbeOutcome.callOk r)).2.1
      = ((r.result.getD Json.null).index "version").asStr ∧
    (classifyProbe (ProbeOutcome.callOk r)).2.2
      = ((r.result.getD Json.null).index "uptime_seconds").asU64 := by
  refine ⟨?_, ?_, ?_, ?_⟩
  · intro hs; simp [classifyProbe, h, hs]
  · intro s hs; simp [classifyProbe, h, hs]
  · simp [classifyProbe, h]
  · simp [classifyProbe, h]

theorem affirmative_payload_fields_witness :
    (classifyProbe (ProbeOutcome.callOk ⟨true, some demoPayload, none⟩)).1 = "degraded" ∧
    (classifyProbe (ProbeOutcome.callOk ⟨true, some demoPayload, none⟩)).2.1 = some "1.2" ∧
    (classifyProbe (ProbeOutcome.callOk ⟨true, some demoPayload, none⟩)).2.2 = some 42 ∧
    (classifyProbe (ProbeOutcome.callOk ⟨true, none, none⟩)).1 = "running" := by
  have h1 := affirmative_payload_fields ⟨true, some demoPayload, none⟩ rfl
  have h2 := affirmative_payload_fields ⟨true, none, none⟩ rfl
  exact ⟨h1.2.1 "degraded" rfl, h1.2.2.1.trans rfl, h1.2.2.2.trans rfl, h2.1 rfl⟩

/-- C6: the listing never fails at request level: the envelope is always a
success (`ok = true`, no error) for every registry state and every
combination of per-service probe outcomes, and an absent registry root or
an empty registry yields an empty data sequence. -/
theorem listing_never_fails (sockPath : String → String)
    (probe : String → ProbeOutcome) (st : RegistryState) :
    (listServices sockPath probe st).ok = true ∧
    (listServices sockPath probe st).error = none ∧
    (st.rootExists = false → (listServices sockPath probe st).data = some []) ∧
    (st.entries = [] → (listServices sockPath probe st).data = some []) := by
  rcases st with ⟨root, rd, entries⟩
  refine ⟨?_, ?_, ?_, ?_⟩
  · cases root <;> rfl
  · cases root <;> rfl
  · intro h
    subst h
    rfl
  · intro h
    subst h
    cases root <;> cases rd <;> rfl

theorem listing_never_fails_witness :
    (listServices (fun n => n) (fun _ => ProbeOutcome.socketMissing)
      ⟨false, true, []⟩).ok = true ∧
    (listServices (fun n => n) (fun _ => ProbeOutcome.socketMissing)
      ⟨false, true, []⟩).data = some [] ∧
    (listServices (fun n => n) (fun _ => ProbeOutcome.callErr "hang")
      ⟨true, true, []⟩).ok = true ∧
    (listServices (fun n => n) (fun _ => ProbeOutcome.callErr "hang")
      ⟨true, true, []⟩).data = some [] :=
  ⟨(listing_never_fails _ _ _).1,
   (listing_never_fails _ _ _).2.2.1 rfl,
   (listing_never_fails _ _ _).1,
   (listing_never_fails (fun n => n) (fun _ => ProbeOutcome.callErr "hang")
     ⟨true, true, []⟩).2.2.2 rfl⟩

/-- The record list returned by the listing for a present registry root. -/
theorem listServices_records (sp : String → String) (pr : String → ProbeOutcome)
    (rd : Bool) (entries : List DirEntry) :
    ((listServices sp pr ⟨true, rd, entries⟩).data).getD [] =
      sortByName ((if rd then entries else []).filterMap fun e =>
        if e.isDir then some (serviceRecord sp pr (entryName e)) else none) := rfl

/-- The listing for an absent registry root is empty. -/
theorem listServices_rootAbsent (sp : String → String) (pr : String → ProbeOutcome)
    (rd : Bool) (entries : List DirEntry) :
    ((listServices sp pr ⟨false, rd, entries⟩).data).getD [] = [] := rfl

/-- C7: a record whose listed status is `"running"` (the spec's `Running`)
can only have been produced from a probe in which the socket existed, a
client connection was constructed, and the health call returned an
affirmative envelope — with no requirement on the payload. -/
theorem running_invariant (sockPath : String → String)
    (probe : String → ProbeOutcome) (st : RegistryState) (rec : ServiceInfo)
    (hmem : rec ∈ ((listServices sockPath probe st).data.getD []))
    (hrun : rec.status = "running") :
    ∃ r, probe rec.name = ProbeOutcome.callOk r ∧ r.ok = true := by
  rcases st with ⟨root, rd, entries⟩
  cases root with
  | false =>
    rw [listServices_rootAbsent] at hmem
    exact absurd hmem (List.not_mem_nil rec)
  | true =>
    rw [listServices_records, sortByName, List.mem_insertionSort,
      List.mem_filterMap] at hmem
    obtain ⟨e, -, he⟩ := hmem
    by_cases hd : e.isDir
    · rw [if_pos hd] at he
      obtain rfl := Option.some_injective _ he
      rw [serviceRecord_status] at hrun
      rw [serviceRecord_name]
      exact running_status_probe _ hrun
    · rw [if_neg hd] at he
      exact absurd he (by simp)

theorem running_invariant_witness :
    ∃ r, ProbeOutcome.callOk ({ ok := true, result := none, error := none } : HealthResponse)
      = ProbeOutcome.callOk r ∧ r.ok = true :=
  running_invariant (fun n => n) (fun _ => ProbeOutcome.callOk ⟨true, none, none⟩)
    ⟨true, true, [⟨some "svc", true⟩]⟩
    (serviceRecord (fun n => n) (fun _ => ProbeOutcome.callOk ⟨true, none, none⟩) "svc")
    (List.mem_singleton.mpr rfl)
    rfl

/-- C10: a supervisor failure on start (or stop) is surfaced as HTTP 500
with a non-affirmative envelope carrying the supervisor's error text
(non-empty whenever that text is), never as a success; a supervisor
success yields HTTP 200 with an affirmative envelope and a message. -/
theorem control_result_mapping (service e : String) (he : e ≠ "") :
    startService service (Except.ok ()) =
      (200, ApiResponse.success (Json.obj [("message",
        Json.str ("Service " ++ sq ++ service ++ sq ++ " started"))])) ∧
    (startService service (Except.error e)).1 = 500 ∧
    (startService service (Except.error e)).2.ok = false ∧
    (startService service (Except.error e)).2.error = some e ∧
    (∀ msg, (startService service (Except.error e)).2.error = some msg → msg ≠ "") ∧
    (∀ sup, (startService service sup).2.ok = true → sup = Except.ok ()) ∧
    stopService service (Except.ok ()) =
      (200, ApiResponse.success (Json.obj [("message",
        Json.str ("Service " ++ sq ++ service ++ sq ++ " stopped"))])) ∧
    (stopService service (Except.error e)).1 = 500 ∧
    (stopService service (Except.error e)).2.ok = false ∧
    (∀ sup, (stopService service sup).2.ok = true → sup = Except.ok ()) := by
  refine ⟨rfl, rfl, rfl, rfl, ?_, ?_, rfl, rfl, rfl, ?_⟩
  · intro msg hmsg
    obtain rfl := Option.some_injective _ hmsg
    exact he
  · intro sup hok
    cases sup with
    | ok u => cases u; rfl
    | error e2 => exact absurd hok (by simp [startService, ApiResponse.errorOf])
  · intro sup hok
    cases sup with
    | ok u => cases u; rfl
    | error e2 => exact absurd hok (by simp [stopService, ApiResponse.errorOf])

theorem control_result_mapping_witness :
    (startService "x" (Except.error "operation denied")).1 = 500 ∧
    (startService "x" (Except.error "operation denied")).2.ok = false ∧
    (∀ msg, (startService "x" (Except.error "operation denied")).2.error = some msg →
      msg ≠ "") ∧
    startService "x" (Except.ok ()) =
      (200, ApiResponse.success (Json.obj [("message",
        Json.str ("Service " ++ sq ++ "x" ++ sq ++ " started"))])) := by
  have h := control_result_mapping "x" "operation denied" (by decide)
  exact ⟨h.2.1, h.2.2.1, h.2.2.2.2.1, h.1⟩

/-- The names of the records produced before sorting are exactly the names
derived from the directory entries that are directories. -/
theorem records_map_name (sp : String → String) (pr : String → ProbeOutcome)
    (entries : List DirEntry) :
    (entries.filterMap fun e =>
        if e.isDir then some (serviceRecord sp pr (entryName e)) else none).map
      ServiceInfo.name
      = entries.filterMap fun e => if e.isDir then some (entryName e) else none := by
  rw [List.map_filterMap]
  refine List.filterMap_congr fun e _ => ?_
  by_cases hd : e.isDir
  · rw [if_pos hd, if_pos hd]
    rfl
  · rw [if_neg hd, if_neg hd]
    rfl

/-- Strict relation used to compare sorted permutations: ordered and with
different names. -/
theorem nameLtStrict_asymm :
    ∀ a b : ServiceInfo, (nameLe a b ∧ a.name ≠ b.name) →
      ¬ (nameLe b a ∧ b.name ≠ a.name) := by
  rintro a b ⟨hle, hne⟩ ⟨hle2, -⟩
  exact hne (nameLe_antisymm hle hle2)

/-- Sorting a list whose names are pairwise distinct is determined by its
multiset of elements: permuted inputs sort to the same output. -/
theorem sortByName_perm_eq {l₁ l₂ : List ServiceInfo}
    (hperm : List.Perm l₁ l₂) (hnodup : (l₁.map ServiceInfo.name).Nodup) :
    sortByName l₁ = sortByName l₂ := by
  have hperm12 : List.Perm (sortByName l₁) (sortByName l₂) :=
    ((List.perm_insertionSort nameLe l₁).trans hperm).trans
      (List.perm_insertionSort nameLe l₂).symm
  have hsorted1 : List.Pairwise nameLe (sortByName l₁) :=
    List.sorted_insertionSort nameLe l₁
  have hsorted2 : List.Pairwise nameLe (sortByName l₂) :=
    List.sorted_insertionSort nameLe l₂
  have hn1 : ((sortByName l₁).map ServiceInfo.name).Nodup :=
    (((List.perm_insertionSort nameLe l₁).map ServiceInfo.name).symm).nodup hnodup
  have hn2 : ((sortByName l₂).map ServiceInfo.name).Nodup :=
    ((hperm12.map ServiceInfo.name)).nodup hn1
  have hne1 : List.Pairwise (fun a b : ServiceInfo => a.name ≠ b.name) (sortByName l₁) :=
    List.pairwise_map.mp hn1
  have hne2 : List.Pairwise (fun a b : ServiceInfo => a.name ≠ b.name) (sortByName l₂) :=
    List.pairwise_map.mp hn2
  exact perm_pairwise_asymm_eq nameLtStrict_asymm hperm12
    (hsorted1.and hne1) (hsorted2.and hne2)

/-- C5: the listing is sorted in byte-wise ascending order of name, and for
a fixed registry of distinctly named services its output does not depend on
the order in which the filesystem enumerates the entries. -/
theorem listing_sorted_and_order_invariant (sockPath : String → String)
    (probe : String → ProbeOutcome) (root rd : Bool) (es₁ es₂ : List DirEntry)
    (hperm : List.Perm es₁ es₂)
    (hnodup : (es₁.filterMap fun e =>
        if e.isDir then some (entryName e) else none).Nodup) :
    List.Pairwise nameLe ((listServices sockPath probe ⟨root, rd, es₁⟩).data.getD []) ∧
    (listServices sockPath probe ⟨root, rd, es₁⟩).data
      = (listServices sockPath probe ⟨root, rd, es₂⟩).data := by
  cases root with
  | false => exact ⟨List.Pairwise.nil, rfl⟩
  | true =>
    cases rd with
    | false =>
      constructor
      · rw [listServices_records]
        exact List.sorted_insertionSort nameLe _
      · rfl
    | true =>
      constructor
      · rw [listServices_records]
        exact List.sorted_insertionSort nameLe _
      · show some (sortByName _) = some (sortByName _)
        refine congrArg some (sortByName_perm_eq (hperm.filterMap _) ?_)
        rw [records_map_name]
        exact hnodup

theorem listing_sorted_and_order_invariant_witness :
    (List.Pairwise nameLe ((listServices (fun n => "/run/fgp/" ++ n ++ ".sock")
        (fun _ => ProbeOutcome.socketMissing)
        ⟨true, true, [⟨some "zeta", true⟩, ⟨some "alpha", true⟩, ⟨some "mid", true⟩]⟩).data.getD
          []) ∧
      (listServices (fun n => "/run/fgp/" ++ n ++ ".sock")
        (fun _ => ProbeOutcome.socketMissing)
        ⟨true, true, [⟨some "zeta", true⟩, ⟨some "alpha", true⟩, ⟨some "mid", true⟩]⟩).data
        = (listServices (fun n => "/run/fgp/" ++ n ++ ".sock")
            (fun _ => ProbeOutcome.socketMissing)
            ⟨true, true,
              [⟨some "alpha", true⟩, ⟨some "mid", true⟩, ⟨some "zeta", true⟩]⟩).data) ∧
    ((listServices (fun n => "/run/fgp/" ++ n ++ ".sock")
        (fun _ => ProbeOutcome.socketMissing)
        ⟨true, true, [⟨some "zeta", true⟩, ⟨some "alpha", true⟩, ⟨some "mid", true⟩]⟩).data.getD
          []).map ServiceInfo.name = ["alpha", "mid", "zeta"] :=
  ⟨listing_sorted_and_order_invariant (fun n => "/run/fgp/" ++ n ++ ".sock")
      (fun _ => ProbeOutcome.socketMissing) true true
      [⟨some "zeta", true⟩, ⟨some "alpha", true⟩, ⟨some "mid", true⟩]
      [⟨some "alpha", true⟩, ⟨some "mid", true⟩, ⟨some "zeta", true⟩]
      (by decide) (by decide),
    by decide⟩

/-- C9: record names were claimed unique in every listing. The code derives
each name through `to_str` with fallback `"unknown"` (api.rs lines 64-68):
two registry entries whose OS-level names are distinct but both invalid
UTF-8 (modelled as `fileName = none`) each fall back to `"unknown"`, so the
listing repeats a name. -/
theorem name_uniqueness_refuted :
    (((listServices (fun n => "/run/fgp/" ++ n ++ ".sock")
        (fun _ => ProbeOutcome.socketMissing)
        ⟨true, true, [⟨none, true⟩, ⟨none, true⟩]⟩).data.getD []).map ServiceInfo.name)
      = ["unknown", "unknown"] ∧
    ¬ (((listServices (fun n => "/run/fgp/" ++ n ++ ".sock")
        (fun _ => ProbeOutcome.socketMissing)
        ⟨true, true, [⟨none, true⟩, ⟨none, true⟩]⟩).data.getD []).map
          ServiceInfo.name).Nodup := by
  constructor
  · rfl
  · intro h
    exact absurd (id h : (["unknown", "unknown"] : List String).Nodup) (by decide)

/-- C9 (amended): each returned record's name is derived from a registry
directory entry's name (its UTF-8 decoding, or the placeholder `"unknown"`
when the OS name does not decode), and the names are unique provided the
derived names of the directory entries are pairwise distinct — which holds
whenever every entry's OS-level name is valid UTF-8, since entry names
within one directory are unique and decoding is injective. -/
theorem names_derived_and_unique (sockPath : String → String)
    (probe : String → ProbeOutcome) (root rd : Bool) (entries : List DirEntry)
    (hnodup : (entries.filterMap fun e =>
        if e.isDir then some (entryName e) else none).Nodup) :
    (∀ rec ∈ ((listServices sockPath probe ⟨root, rd, entries⟩).data.getD []),
      ∃ e ∈ entries, e.isDir ∧ rec.name = entryName e) ∧
    (((listServices sockPath probe ⟨root, rd, entries⟩).data.getD []).map
      ServiceInfo.name).Nodup := by
  cases root with
  | false =>
    constructor
    · intro rec hmem
      rw [listServices_rootAbsent] at hmem
      exact absurd hmem (List.not_mem_nil rec)
    · rw [listServices_rootAbsent]
      exact List.nodup_nil
  | true =>
    cases rd with
    | false =>
      constructor
      · intro rec hmem
        rw [listServices_records] at hmem
        exact absurd hmem (List.not_mem_nil rec)
      · rw [listServices_records]
        exact List.nodup_nil
    | true =>
      constructor
      · intro rec hmem
        rw [listServices_records, sortByName, List.mem_insertionSort,
          List.mem_filterMap] at hmem
        obtain ⟨e, he, heq⟩ := hmem
        by_cases hd : e.isDir
        · rw [if_pos hd] at heq
          obtain rfl := Option.some_injective _ heq
          exact ⟨e, he, hd, serviceRecord_name sockPath probe (entryName e)⟩
        · rw [if_neg hd] at heq
          exact absurd heq (by simp)
      · rw [listServices_records]
        have hperm : List.Perm ((sortByName _).map ServiceInfo.name)
            ((entries.filterMap fun e =>
              if e.isDir then some (serviceRecord sockPath probe (entryName e))
              else none).map ServiceInfo.name) :=
          (List.perm_insertionSort nameLe _).map ServiceInfo.name
        refine hperm.symm.nodup ?_
        rw [records_map_name]
        exact hnodup

theorem names_derived_and_unique_witness :
    (∀ rec ∈ ((listServices (fun n => "/run/fgp/" ++ n ++ ".sock")
        (fun _ => ProbeOutcome.socketMissing)
        ⟨true, true, [⟨some "alpha", true⟩, ⟨some "beta", true⟩]⟩).data.getD []),
      ∃ e ∈ ([⟨some "alpha", true⟩, ⟨some "beta", true⟩] : List DirEntry),
        e.isDir ∧ rec.name = entryName e) ∧
    (((listServices (fun n => "/run/fgp/" ++ n ++ ".sock")
        (fun _ => ProbeOutcome.socketMissing)
        ⟨true, true, [⟨some "alpha", true⟩, ⟨some "beta", true⟩]⟩).data.getD []).map
      ServiceInfo.name).Nodup :=
  names_derived_and_unique (fun n => "/run/fgp/" ++ n ++ ".sock")
    (fun _ => ProbeOutcome.socketMissing) true true
    [⟨some "alpha", true⟩, ⟨some "beta", true⟩] (by decide)

end FgpDashboard
